import Mathlib

/-!
Shallow embedding of the `TestimonialCarousel` component
(`src/testimonial_section_frontend/src/components/TestimonialCarousel.js`).

Geometry of the scrollable container is modelled with integers: `scrollLeft`,
`scrollWidth`, `clientWidth`, and the ordered list of the children's
`offsetLeft` values.  The component state tracked by the hooks
(`canScrollLeft`, `canScrollRight`, `activeIndex`) is a record, and
`updateScrollState` is the state transformer of the callback of the same
name.  A possibly-unmounted container (`containerRef.current`) is an
`Option Geometry`.
-/

/-- Container geometry as read from the DOM element:
`scrollLeft`, `scrollWidth`, `clientWidth` and the children's `offsetLeft`
values in document order. -/
structure Geometry where
  scrollLeft : Int
  scrollWidth : Int
  clientWidth : Int
  childOffsets : List Int
deriving DecidableEq, Repr

/-- The component state set by the `useState` hooks:
`canScrollLeft`, `canScrollRight`, `activeIndex`. -/
structure CarouselState where
  canScrollLeft : Bool
  canScrollRight : Bool
  activeIndex : Nat
deriving DecidableEq, Repr

/-- Initial hook values: `useState(false)`, `useState(true)`, `useState(0)`. -/
def initState : CarouselState :=
  { canScrollLeft := false, canScrollRight := true, activeIndex := 0 }

/-- The `children.forEach` loop of `updateScrollState`: threads the mutable
`closestIdx` / `closestDelta` pair through the list of child offsets.
`none` models the initial `Number.POSITIVE_INFINITY`, against which every
delta compares as smaller. -/
def closestLoop (scrollLeft : Int) : List Int → Nat → Nat × Option Nat → Nat × Option Nat
  | [], _, acc => acc
  | x :: xs, idx, (cIdx, cDelta) =>
    let delta := (x - scrollLeft).natAbs
    let beats :=
      match cDelta with
      | none => true
      | some cd => decide (delta < cd)
    if beats then closestLoop scrollLeft xs (idx + 1) (idx, some delta)
    else closestLoop scrollLeft xs (idx + 1) (cIdx, cDelta)

/-- Index of the child whose left edge is closest to `scrollLeft`
(the value `updateScrollState` assigns to `activeIndex`). -/
def closestIdx (offsets : List Int) (scrollLeft : Int) : Nat :=
  (closestLoop scrollLeft offsets 0 (0, none)).1

/-- `updateScrollState`: early-returns when the container ref is `null`;
otherwise recomputes both scroll flags, and, when the child list is
non-empty, sets `activeIndex` to the closest child's index. -/
def updateScrollState (container : Option Geometry) (st : CarouselState) : CarouselState :=
  match container with
  | none => st
  | some el =>
    let st1 := { st with
      canScrollLeft := decide (el.scrollLeft > 0),
      canScrollRight := decide (el.scrollLeft + el.clientWidth < el.scrollWidth - 1) }
    let children := el.childOffsets
    if children.length ≠ 0 then
      { st1 with activeIndex := closestIdx children el.scrollLeft }
    else st1

/-- `scrollByViewport(dir)`: the scroll delta requested from the browser
via `el.scrollBy({ left: dir * el.clientWidth })`, or `none` when the
container ref is `null` and the call is a no-op. -/
def scrollByViewport (container : Option Geometry) (dir : Int) : Option Int :=
  match container with
  | none => none
  | some el => some (dir * el.clientWidth)

/-- Observable outcome of the `onKeyDown` handler: whether
`e.preventDefault()` was called, and the scroll delta requested (if any). -/
structure KeyDownResult where
  prevented : Bool
  requestedDelta : Option Int
deriving DecidableEq, Repr

/-- The `onKeyDown` handler: ArrowRight scrolls by `+clientWidth`,
ArrowLeft by `-clientWidth` (both call `preventDefault`); every other key
falls through untouched. -/
def onKeyDown (container : Option Geometry) (key : String) : KeyDownResult :=
  if key = "ArrowRight" then { prevented := true, requestedDelta := scrollByViewport container 1 }
  else if key = "ArrowLeft" then { prevented := true, requestedDelta := scrollByViewport container (-1) }
  else { prevented := false, requestedDelta := none }

/-- A testimonial item as consumed by the component. -/
structure TestimonialItem where
  id : Int
  name : String
  role : String
  rating : Option Nat
  text : String
deriving DecidableEq, Repr

/-- The built-in default dataset used when no (non-empty) `items` prop is
given. -/
def defaultTestimonials : List TestimonialItem :=
  [ { id := 1, name := "Alex Johnson", role := "Product Manager, Bluewave", rating := some 5,
      text := "The carousel is slick and intuitive. Our customers love browsing reviews!" },
    { id := 2, name := "Priya Singh", role := "Founder, Horizon Labs", rating := some 5,
      text := "Clean design with accessible controls. Exactly what we needed." },
    { id := 3, name := "Marcus Lee", role := "CTO, NorthStar", rating := some 4,
      text := "Solid performance and smooth transitions across devices." },
    { id := 4, name := "Emily Chen", role := "Design Lead, Aurora", rating := some 5,
      text := "Ocean Professional theme shines—subtle gradients and great legibility." },
    { id := 5, name := "Diego Martinez", role := "Marketing, WavePoint", rating := some 4,
      text := "Setup was straightforward and the UI feels premium." },
    { id := 6, name := "Sofia Rossi", role := "Operations, TerraCore", rating := some 5,
      text := "Love the keyboard navigation and the swipe gestures on mobile!" },
    { id := 7, name := "Hannah Kim", role := "Engineer, FinEdge", rating := some 5,
      text := "Great balance of aesthetics and accessibility." },
    { id := 8, name := "Liam O\x27Connor", role := "CEO, BrightPath", rating := some 5,
      text := "The best testimonial section we’ve tried. Fast, simple, beautiful." } ]

/-- The `useMemo` computing `testimonials`:
`items && items.length ? items : [ ...defaults ]`.  A missing prop or an
empty list both fall back to the default dataset. -/
def testimonials (items : Option (List TestimonialItem)) : List TestimonialItem :=
  match items with
  | none => defaultTestimonials
  | some l => if l.length ≠ 0 then l else defaultTestimonials

/-- One `<article>` card is rendered per element of `testimonials`. -/
def renderedCardCount (items : Option (List TestimonialItem)) : Nat :=
  (testimonials items).length

/-- The live-region effect: the text written to `liveRef` on an
`activeIndex` change, or `none` when announcements are disabled, the live
node is unavailable, or no item exists at `activeIndex`. -/
def announcement (announceChanges : Bool) (liveAvailable : Bool)
    (ts : List TestimonialItem) (activeIndex : Nat) : Option String :=
  if announceChanges = false then none
  else if liveAvailable = false then none
  else
    match ts.get? activeIndex with
    | none => none
    | some current =>
      some ("Showing testimonial " ++ toString (activeIndex + 1) ++ " of "
        ++ toString ts.length ++ ": " ++ current.name ++ ", " ++ current.role)

/-- A sequence of `updateScrollState` calls (scroll / resize / mount
events), each observing the container ref at that moment. -/
def runUpdates (st : CarouselState) (calls : List (Option Geometry)) : CarouselState :=
  calls.foldl (fun s c => updateScrollState c s) st

/-! ### Helper lemmas about the closest-child loop -/

/-- Invariant of `closestLoop` once `closestDelta` is finite: the final
delta is `some cd'` with `cd' ≤ cd`, `cd'` is a lower bound of the deltas
of the remaining children, and the result is either the incoming
accumulator untouched, or the position of a child of the remaining list
that strictly beats `cd` and strictly beats every child before it. -/
theorem closestLoop_spec (s : Int) :
    ∀ (xs : List Int) (idx cIdx cd : Nat),
    ∃ cd',
      (closestLoop s xs idx (cIdx, some cd)).2 = some cd' ∧
      cd' ≤ cd ∧
      (∀ j, j < xs.length → cd' ≤ (xs.getD j 0 - s).natAbs) ∧
      (closestLoop s xs idx (cIdx, some cd) = (cIdx, some cd) ∨
        ∃ j, j < xs.length ∧ (closestLoop s xs idx (cIdx, some cd)).1 = idx + j ∧
          cd' = (xs.getD j 0 - s).natAbs ∧ cd' < cd ∧
          ∀ j', j' < j → cd' < (xs.getD j' 0 - s).natAbs) := by
  intro xs
  induction xs with
  | nil =>
    intro idx cIdx cd
    refine ⟨cd, rfl, le_refl _, ?_, Or.inl rfl⟩
    intro j hj
    simp at hj
  | cons x xs ih =>
    intro idx cIdx cd
    by_cases hb : (x - s).natAbs < cd
    · have hstep :
          closestLoop s (x :: xs) idx (cIdx, some cd) =
            closestLoop s xs (idx + 1) (idx, some (x - s).natAbs) := by
        simp [closestLoop, hb]
      obtain ⟨cd', h2, hle, hmin, hcase⟩ := ih (idx + 1) idx (x - s).natAbs
      refine ⟨cd', by rw [hstep]; exact h2, le_of_lt (lt_of_le_of_lt hle hb), ?_, ?_⟩
      · intro j hj
        cases j with
        | zero => simpa using hle
        | succ k =>
          rw [List.getD_cons_succ]
          exact hmin k (by simpa using hj)
      · rcases hcase with hA | ⟨j, hjlen, hfst, hcd, hlt, hstrict⟩
        · -- inner loop kept `(idx, some (x - s).natAbs)`: child 0 won
          refine Or.inr ⟨0, by simp, ?_, ?_, ?_, ?_⟩
          · rw [hstep, hA]
            simp
          · have : cd' = (x - s).natAbs := by
              have := h2
              rw [hA] at this
              exact (Option.some.inj this).symm
            simpa using this
          · have : cd' = (x - s).natAbs := by
              have := h2
              rw [hA] at this
              exact (Option.some.inj this).symm
            rw [this]; exact hb
          · intro j' hj'
            exact absurd hj' (Nat.not_lt_zero _)
        · -- inner loop settled on child `j` of the tail
          refine Or.inr ⟨j + 1, by simpa using Nat.succ_lt_succ hjlen, ?_, ?_, ?_, ?_⟩
          · rw [hstep, hfst]; omega
          · rw [List.getD_cons_succ]; exact hcd
          · exact lt_trans hlt hb
          · intro j' hj'
            cases j' with
            | zero => rw [List.getD_cons_zero]; exact hlt
            | succ k =>
              rw [List.getD_cons_succ]
              exact hstrict k (by omega)
    · have hstep :
          closestLoop s (x :: xs) idx (cIdx, some cd) =
            closestLoop s xs (idx + 1) (cIdx, some cd) := by
        simp [closestLoop, hb]
      obtain ⟨cd', h2, hle, hmin, hcase⟩ := ih (idx + 1) cIdx cd
      refine ⟨cd', by rw [hstep]; exact h2, hle, ?_, ?_⟩
      · intro j hj
        cases j with
        | zero =>
          rw [List.getD_cons_zero]
          exact le_trans hle (Nat.le_of_not_lt hb)
        | succ k =>
          rw [List.getD_cons_succ]
          exact hmin k (by simpa using hj)
      · rcases hcase with hA | ⟨j, hjlen, hfst, hcd, hlt, hstrict⟩
        · exact Or.inl (by rw [hstep, hA])
        · refine Or.inr ⟨j + 1, by simpa using Nat.succ_lt_succ hjlen, ?_, ?_, hlt, ?_⟩
          · rw [hstep, hfst]; omega
          · rw [List.getD_cons_succ]; exact hcd
          · intro j' hj'
            cases j' with
            | zero =>
              rw [List.getD_cons_zero]
              exact lt_of_lt_of_le hlt (Nat.le_of_not_lt hb)
            | succ k =>
              rw [List.getD_cons_succ]
              exact hstrict k (by omega)

/-- Full characterisation of `closestIdx` on a non-empty child list:
the result is in range, its delta is a minimum of all deltas, and every
earlier child has a strictly larger delta (first occurrence wins). -/
theorem closestIdx_spec (offsets : List Int) (s : Int) (h : offsets ≠ []) :
    closestIdx offsets s < offsets.length ∧
    (∀ j, j < offsets.length →
      (offsets.getD (closestIdx offsets s) 0 - s).natAbs ≤ (offsets.getD j 0 - s).natAbs) ∧
    (∀ j, j < closestIdx offsets s →
      (offsets.getD (closestIdx offsets s) 0 - s).natAbs < (offsets.getD j 0 - s).natAbs) := by
  match offsets, h with
  | x :: xs, _ =>
    have hstep :
        closestLoop s (x :: xs) 0 (0, none) =
          closestLoop s xs 1 (0, some (x - s).natAbs) := by
      simp [closestLoop]
    obtain ⟨cd', h2, hle, hmin, hcase⟩ := closestLoop_spec s xs 1 0 (x - s).natAbs
    rcases hcase with hA | ⟨j, hjlen, hfst, hcd, hlt, hstrict⟩
    · have hidx : closestIdx (x :: xs) s = 0 := by
        unfold closestIdx
        rw [hstep, hA]
      have hcd' : cd' = (x - s).natAbs := by
        rw [hA] at h2
        exact (Option.some.inj h2).symm
      refine ⟨by simp [hidx], ?_, ?_⟩
      · intro j hj
        rw [hidx, List.getD_cons_zero]
        cases j with
        | zero => rw [List.getD_cons_zero]
        | succ k =>
          rw [List.getD_cons_succ]
          have := hmin k (by simpa using hj)
          omega
      · intro j hj
        rw [hidx] at hj
        exact absurd hj (Nat.not_lt_zero _)
    · have hidx : closestIdx (x :: xs) s = 1 + j := by
        unfold closestIdx
        rw [hstep, hfst]
      refine ⟨?_, ?_, ?_⟩
      · rw [hidx]; simp; omega
      · intro j' hj'
        have hgetidx : ((x :: xs).getD (closestIdx (x :: xs) s) 0 - s).natAbs = cd' := by
          rw [hidx]
          have : 1 + j = j + 1 := by omega
          rw [this, List.getD_cons_succ, ← hcd]
        rw [hgetidx]
        cases j' with
        | zero =>
          rw [List.getD_cons_zero]
          omega
        | succ k =>
          rw [List.getD_cons_succ]
          exact hmin k (by simpa using hj')
      · intro j' hj'
        have hgetidx : ((x :: xs).getD (closestIdx (x :: xs) s) 0 - s).natAbs = cd' := by
          rw [hidx]
          have : 1 + j = j + 1 := by omega
          rw [this, List.getD_cons_succ, ← hcd]
        rw [hgetidx]
        rw [hidx] at hj'
        cases j' with
        | zero =>
          rw [List.getD_cons_zero]
          exact hlt
        | succ k =>
          rw [List.getD_cons_succ]
          exact hstrict k (by omega)

/-- The two scroll flags after a call with an available container,
whatever the child list. -/
theorem updateScrollState_flags (g : Geometry) (st : CarouselState) :
    (updateScrollState (some g) st).canScrollLeft = decide (g.scrollLeft > 0) ∧
    (updateScrollState (some g) st).canScrollRight
      = decide (g.scrollLeft + g.clientWidth < g.scrollWidth - 1) := by
  by_cases hc : g.childOffsets.length ≠ 0 <;> simp [updateScrollState, hc]

/-- A call preserves `activeIndex < n` when the container, if available,
has exactly `n` children and `n` is positive. -/
theorem updateScrollState_activeIndex_lt (c : Option Geometry) (st : CarouselState)
    (n : Nat) (hn : 0 < n) (hst : st.activeIndex < n)
    (hc : ∀ g, c = some g → g.childOffsets.length = n) :
    (updateScrollState c st).activeIndex < n := by
  cases c with
  | none => exact hst
  | some g =>
    have hlen : g.childOffsets.length = n := hc g rfl
    have hne : g.childOffsets ≠ [] := by
      intro h
      rw [h] at hlen
      simp at hlen
      omega
    have hlt := (closestIdx_spec g.childOffsets g.scrollLeft hne).1
    have hlen0 : g.childOffsets.length ≠ 0 := by omega
    simp [updateScrollState, hlen0]
    omega

/-! ### Claims -/

/-- C2: on an available container, `canScrollLeft` is exactly
`scrollLeft > 0` and `canScrollRight` is exactly
`scrollLeft + clientWidth < scrollWidth - 1`; with a non-negative
`scrollLeft`, the former is `false` iff `scrollLeft = 0` and the latter is
`false` iff the container is within 1 unit of its maximum scroll offset
`scrollWidth - clientWidth`. -/
theorem claim2_scroll_flags (g : Geometry) (st : CarouselState)
    (h : 0 ≤ g.scrollLeft) :
    (updateScrollState (some g) st).canScrollLeft = decide (g.scrollLeft > 0) ∧
    (updateScrollState (some g) st).canScrollRight
      = decide (g.scrollLeft + g.clientWidth < g.scrollWidth - 1) ∧
    ((updateScrollState (some g) st).canScrollLeft = false ↔ g.scrollLeft = 0) ∧
    ((updateScrollState (some g) st).canScrollRight = false
      ↔ g.scrollWidth - g.clientWidth - 1 ≤ g.scrollLeft) := by
  obtain ⟨hl, hr⟩ := updateScrollState_flags g st
  refine ⟨hl, hr, ?_, ?_⟩
  · rw [hl]
    simp only [decide_eq_false_iff_not]
    omega
  · rw [hr]
    simp only [decide_eq_false_iff_not]
    omega

/-- Witness for C2 at a concrete geometry. -/
theorem claim2_scroll_flags_witness :
    (0 : Int) ≤ (Geometry.mk 0 100 50 [] : Geometry).scrollLeft ∧
    ((updateScrollState (some (Geometry.mk 0 100 50 [])) initState).canScrollLeft
        = decide ((0 : Int) > 0) ∧
      (updateScrollState (some (Geometry.mk 0 100 50 [])) initState).canScrollRight
        = decide ((0 : Int) + 50 < 100 - 1) ∧
      ((updateScrollState (some (Geometry.mk 0 100 50 [])) initState).canScrollLeft = false
        ↔ (0 : Int) = 0) ∧
      ((updateScrollState (some (Geometry.mk 0 100 50 [])) initState).canScrollRight = false
        ↔ (100 : Int) - 50 - 1 ≤ 0)) :=
  ⟨by decide, claim2_scroll_flags (Geometry.mk 0 100 50 []) initState (by decide)⟩

/-- C6: with a `null` container ref, `updateScrollState` returns the state
unchanged and `scrollByViewport` requests no scroll. -/
theorem claim6_null_container_noop (st : CarouselState) (dir : Int) :
    updateScrollState none st = st ∧ scrollByViewport none dir = none :=
  ⟨rfl, rfl⟩

/-- C7: with an available container whose child list is empty,
`activeIndex` keeps its previous value while both scroll flags are
recomputed; the whole resulting state is exactly those three fields. -/
theorem claim7_empty_children_frame (g : Geometry) (st : CarouselState)
    (h : g.childOffsets = []) :
    (updateScrollState (some g) st).activeIndex = st.activeIndex ∧
    updateScrollState (some g) st =
      { canScrollLeft := decide (g.scrollLeft > 0),
        canScrollRight := decide (g.scrollLeft + g.clientWidth < g.scrollWidth - 1),
        activeIndex := st.activeIndex } := by
  constructor <;> simp [updateScrollState, h]

/-- Witness for C7 at a concrete geometry with no children. -/
theorem claim7_empty_children_frame_witness :
    (Geometry.mk 7 100 50 [] : Geometry).childOffsets = [] ∧
    ((updateScrollState (some (Geometry.mk 7 100 50 [])) (CarouselState.mk false true 3)).activeIndex
        = (CarouselState.mk false true 3).activeIndex ∧
      updateScrollState (some (Geometry.mk 7 100 50 [])) (CarouselState.mk false true 3) =
        { canScrollLeft := decide ((7 : Int) > 0),
          canScrollRight := decide ((7 : Int) + 50 < 100 - 1),
          activeIndex := (CarouselState.mk false true 3).activeIndex }) :=
  ⟨rfl, claim7_empty_children_frame (Geometry.mk 7 100 50 []) (CarouselState.mk false true 3) rfl⟩

/-- C9: `updateScrollState` is a function of the observed geometry and the
previous state only, and for unchanged geometry it is idempotent: a second
call with the same geometry leaves the state fixed. -/
theorem claim9_idempotent (c : Option Geometry) (st : CarouselState) :
    updateScrollState c (updateScrollState c st) = updateScrollState c st := by
  cases c with
  | none => rfl
  | some g => by_cases hc : g.childOffsets.length ≠ 0 <;> simp [updateScrollState, hc]

/-- C1: on an available container with a non-empty child list, the
resulting `activeIndex` is the index of the child whose `offsetLeft` has
the smallest absolute distance to `scrollLeft`, and on exact ties the
lowest index wins (every earlier child is strictly farther). -/
theorem claim1_activeIndex_nearest_child (g : Geometry) (st : CarouselState)
    (h : g.childOffsets ≠ []) :
    (updateScrollState (some g) st).activeIndex = closestIdx g.childOffsets g.scrollLeft ∧
    closestIdx g.childOffsets g.scrollLeft < g.childOffsets.length ∧
    (∀ j, j < g.childOffsets.length →
      (g.childOffsets.getD (closestIdx g.childOffsets g.scrollLeft) 0 - g.scrollLeft).natAbs
        ≤ (g.childOffsets.getD j 0 - g.scrollLeft).natAbs) ∧
    (∀ j, j < closestIdx g.childOffsets g.scrollLeft →
      (g.childOffsets.getD (closestIdx g.childOffsets g.scrollLeft) 0 - g.scrollLeft).natAbs
        < (g.childOffsets.getD j 0 - g.scrollLeft).natAbs) := by
  obtain ⟨hlt, hmin, hstrict⟩ := closestIdx_spec g.childOffsets g.scrollLeft h
  have h0 : g.childOffsets.length ≠ 0 := by
    intro h0
    exact h (List.length_eq_zero.mp h0)
  exact ⟨by simp [updateScrollState, h0], hlt, hmin, hstrict⟩

/-- Witness for C1 at a concrete geometry (`closestIdx [0, 10, 4] 5 = 2`). -/
theorem claim1_activeIndex_nearest_child_witness :
    (Geometry.mk 5 100 50 [0, 10, 4]).childOffsets ≠ [] ∧
    ((updateScrollState (some (Geometry.mk 5 100 50 [0, 10, 4])) initState).activeIndex
        = closestIdx (Geometry.mk 5 100 50 [0, 10, 4]).childOffsets
            (Geometry.mk 5 100 50 [0, 10, 4]).scrollLeft ∧
      closestIdx (Geometry.mk 5 100 50 [0, 10, 4]).childOffsets
          (Geometry.mk 5 100 50 [0, 10, 4]).scrollLeft
        < (Geometry.mk 5 100 50 [0, 10, 4]).childOffsets.length ∧
      (∀ j, j < (Geometry.mk 5 100 50 [0, 10, 4]).childOffsets.length →
        ((Geometry.mk 5 100 50 [0, 10, 4]).childOffsets.getD
            (closestIdx (Geometry.mk 5 100 50 [0, 10, 4]).childOffsets
              (Geometry.mk 5 100 50 [0, 10, 4]).scrollLeft) 0
          - (Geometry.mk 5 100 50 [0, 10, 4]).scrollLeft).natAbs
          ≤ ((Geometry.mk 5 100 50 [0, 10, 4]).childOffsets.getD j 0
            - (Geometry.mk 5 100 50 [0, 10, 4]).scrollLeft).natAbs) ∧
      (∀ j, j < closestIdx (Geometry.mk 5 100 50 [0, 10, 4]).childOffsets
          (Geometry.mk 5 100 50 [0, 10, 4]).scrollLeft →
        ((Geometry.mk 5 100 50 [0, 10, 4]).childOffsets.getD
            (closestIdx (Geometry.mk 5 100 50 [0, 10, 4]).childOffsets
              (Geometry.mk 5 100 50 [0, 10, 4]).scrollLeft) 0
          - (Geometry.mk 5 100 50 [0, 10, 4]).scrollLeft).natAbs
          < ((Geometry.mk 5 100 50 [0, 10, 4]).childOffsets.getD j 0
            - (Geometry.mk 5 100 50 [0, 10, 4]).scrollLeft).natAbs)) :=
  ⟨by decide, claim1_activeIndex_nearest_child (Geometry.mk 5 100 50 [0, 10, 4]) initState
    (by decide)⟩

/-- Any run of `updateScrollState` calls over containers with exactly `n`
children keeps `activeIndex` below `n`. -/
theorem runUpdates_activeIndex_lt (n : Nat) (hn : 0 < n) :
    ∀ (calls : List (Option Geometry)) (st : CarouselState),
    st.activeIndex < n →
    (∀ g, some g ∈ calls → g.childOffsets.length = n) →
    (runUpdates st calls).activeIndex < n := by
  intro calls
  induction calls with
  | nil =>
    intro st hst _
    exact hst
  | cons c cs ih =>
    intro st hst hcalls
    have h1 := updateScrollState_activeIndex_lt c st n hn hst
      (fun g hg => hcalls g (by rw [← hg]; exact List.mem_cons_self c cs))
    exact ih (updateScrollState c st) h1 (fun g hg => hcalls g (List.mem_cons_of_mem c hg))

/-- C10: every `activeIndex` produced by `updateScrollState` is a valid
index into the child list; starting from the initial value 0, any
sequence of calls whose available containers have exactly `n = items`
children keeps `activeIndex` in `[0, n)`. -/
theorem claim10_activeIndex_in_range (n : Nat) (st : CarouselState)
    (calls : List (Option Geometry)) (hn : 0 < n) (hst : st.activeIndex < n)
    (hcalls : ∀ g, some g ∈ calls → g.childOffsets.length = n) :
    initState.activeIndex = 0 ∧ initState.activeIndex < n ∧
    (runUpdates st calls).activeIndex < n :=
  ⟨rfl, hn, runUpdates_activeIndex_lt n hn calls st hst hcalls⟩

/-- Witness for C10: two scroll events and one unmounted observation over
a 3-child container, starting from the initial state. -/
theorem claim10_activeIndex_in_range_witness :
    0 < 3 ∧ initState.activeIndex < 3 ∧
    (∀ g, some g ∈ [some (Geometry.mk 5 100 50 [0, 10, 4]), none,
        some (Geometry.mk 9 100 50 [0, 10, 4])] → g.childOffsets.length = 3) ∧
    (initState.activeIndex = 0 ∧ initState.activeIndex < 3 ∧
      (runUpdates initState [some (Geometry.mk 5 100 50 [0, 10, 4]), none,
        some (Geometry.mk 9 100 50 [0, 10, 4])]).activeIndex < 3) :=
  ⟨by decide, by decide,
    by
      intro g hg
      simp only [List.mem_cons, List.not_mem_nil, or_false] at hg
      rcases hg with h | h | h
      · injection h with h2
        subst h2
        rfl
      · exact absurd h (by simp)
      · injection h with h2
        subst h2
        rfl,
    claim10_activeIndex_in_range 3 initState
      [some (Geometry.mk 5 100 50 [0, 10, 4]), none, some (Geometry.mk 9 100 50 [0, 10, 4])]
      (by decide) (by decide)
      (by
        intro g hg
        simp only [List.mem_cons, List.not_mem_nil, or_false] at hg
        rcases hg with h | h | h
        · injection h with h2
          subst h2
          rfl
        · exact absurd h (by simp)
        · injection h with h2
          subst h2
          rfl)⟩

/-- C4: with announcements enabled and the live region mounted, whenever
the item at `activeIndex` exists the text written to the live region is
exactly `Showing testimonial {activeIndex+1} of {totalSlides}:
{displayName}, {role}`. -/
theorem claim4_announcement_text (ts : List TestimonialItem) (i : Nat)
    (current : TestimonialItem) (h : ts.get? i = some current) :
    announcement true true ts i =
      some ("Showing testimonial " ++ toString (i + 1) ++ " of "
        ++ toString ts.length ++ ": " ++ current.name ++ ", " ++ current.role) := by
  have h2 : ts[i]? = some current := by
    rw [← List.get?_eq_getElem?]
    exact h
  simp [announcement, h2]

/-- Witness for C4 on a one-item list. -/
theorem claim4_announcement_text_witness :
    ([⟨1, "Jane Doe", "PM, Acme", some 5, "Great!"⟩] : List TestimonialItem).get? 0
        = some ⟨1, "Jane Doe", "PM, Acme", some 5, "Great!"⟩ ∧
    announcement true true [⟨1, "Jane Doe", "PM, Acme", some 5, "Great!"⟩] 0 =
      some ("Showing testimonial " ++ toString (0 + 1) ++ " of "
        ++ toString ([⟨1, "Jane Doe", "PM, Acme", some 5, "Great!"⟩] : List TestimonialItem).length
        ++ ": " ++ (⟨1, "Jane Doe", "PM, Acme", some 5, "Great!"⟩ : TestimonialItem).name
        ++ ", " ++ (⟨1, "Jane Doe", "PM, Acme", some 5, "Great!"⟩ : TestimonialItem).role) :=
  ⟨rfl, claim4_announcement_text [⟨1, "Jane Doe", "PM, Acme", some 5, "Great!"⟩] 0
    ⟨1, "Jane Doe", "PM, Acme", some 5, "Great!"⟩ rfl⟩

/-- C5: ArrowRight requests exactly `+clientWidth`, ArrowLeft exactly
`-clientWidth` (both calling `preventDefault`), and any other key neither
scrolls nor calls `preventDefault`. -/
theorem claim5_directional_keys (g : Geometry) (key : String)
    (hr : key ≠ "ArrowRight") (hl : key ≠ "ArrowLeft") :
    onKeyDown (some g) "ArrowRight"
      = { prevented := true, requestedDelta := some g.clientWidth } ∧
    onKeyDown (some g) "ArrowLeft"
      = { prevented := true, requestedDelta := some (-g.clientWidth) } ∧
    onKeyDown (some g) key = { prevented := false, requestedDelta := none } := by
  refine ⟨?_, ?_, ?_⟩
  · simp [onKeyDown, scrollByViewport]
  · simp [onKeyDown, scrollByViewport]
  · simp [onKeyDown, hr, hl]

/-- Witness for C5 with the unhandled key `"a"`. -/
theorem claim5_directional_keys_witness :
    ("a" : String) ≠ "ArrowRight" ∧ ("a" : String) ≠ "ArrowLeft" ∧
    (onKeyDown (some (Geometry.mk 0 100 50 [])) "ArrowRight"
        = { prevented := true, requestedDelta := some (Geometry.mk 0 100 50 []).clientWidth } ∧
      onKeyDown (some (Geometry.mk 0 100 50 [])) "ArrowLeft"
        = { prevented := true, requestedDelta := some (-(Geometry.mk 0 100 50 []).clientWidth) } ∧
      onKeyDown (some (Geometry.mk 0 100 50 [])) "a"
        = { prevented := false, requestedDelta := none }) :=
  ⟨by decide, by decide,
    claim5_directional_keys (Geometry.mk 0 100 50 []) "a" (by decide) (by decide)⟩

/-- C3 as stated is false: with `items = []` the `items && items.length`
test is falsy, so the built-in default dataset (8 items) is substituted —
8 cards are rendered and an announcement for the first default item is
written, not zero cards and silence. -/
theorem claim3_empty_items_counterexample :
    renderedCardCount (some []) ≠ 0 ∧ renderedCardCount (some []) = 8 ∧
    announcement true true (testimonials (some [])) 0
      = some "Showing testimonial 1 of 8: Alex Johnson, Product Manager, Bluewave" :=
  ⟨by decide, by decide, rfl⟩

/-- C3 amended: rendering with an empty item list substitutes the default
dataset — the card count equals the default list's length (8), and with
announcements enabled and the live region mounted the first default item
is announced. -/
theorem claim3_empty_items_uses_defaults :
    testimonials (some []) = defaultTestimonials ∧
    renderedCardCount (some []) = defaultTestimonials.length ∧
    renderedCardCount (some []) = 8 ∧
    announcement true true (testimonials (some [])) 0
      = some "Showing testimonial 1 of 8: Alex Johnson, Product Manager, Bluewave" :=
  ⟨rfl, rfl, rfl, rfl⟩

/-- C8: with `N` equal-width, gap-free children (child `i` at
`base + i * w`, `w > 0`) and `scrollLeft` exactly at child `k`'s left
offset, `updateScrollState` sets `activeIndex = k`. -/
theorem claim8_equal_width_layout (base w : Int) (N k : Nat) (sw cw : Int)
    (st : CarouselState) (hw : 0 < w) (hk : k < N) :
    (updateScrollState
        (some (Geometry.mk (base + k * w) sw cw
          ((List.range N).map (fun i : Nat => base + (i : Int) * w)))) st).activeIndex = k := by
  set offs : List Int := (List.range N).map (fun i : Nat => base + (i : Int) * w) with hoffs
  have hlen : offs.length = N := by simp [hoffs]
  have hN : 0 < N := Nat.pos_of_ne_zero (by omega)
  have hne : offs ≠ [] := by
    intro hnil
    rw [hnil] at hlen
    simp at hlen
    omega
  have hget : ∀ j, j < N → offs.getD j 0 = base + j * w := by
    intro j hj
    have hjlen : j < offs.length := by omega
    rw [List.getD_eq_getElem offs 0 hjlen]
    simp [hoffs]
  obtain ⟨hlt, hmin, _⟩ := closestIdx_spec offs (base + k * w) hne
  set i := closestIdx offs (base + k * w) with hi
  have hDk : (offs.getD k 0 - (base + k * w)).natAbs = 0 := by
    rw [hget k hk]
    simp
  have hDi : (offs.getD i 0 - (base + k * w)).natAbs = 0 :=
    Nat.le_zero.mp (hDk ▸ hmin k (by omega))
  have heq : offs.getD i 0 = base + k * w := by
    have := Int.natAbs_eq_zero.mp hDi
    omega
  have hiN : i < N := by omega
  have heq2 : base + (i : Int) * w = base + (k : Int) * w := by
    rw [← hget i hiN]
    exact heq
  have hcast : (i : Int) = (k : Int) := by
    have hmul : (i : Int) * w = (k : Int) * w := by omega
    exact mul_right_cancel₀ (ne_of_gt hw) hmul
  have hik : i = k := by exact_mod_cast hcast
  have h0 : offs.length ≠ 0 := by omega
  have hact :
      (updateScrollState (some (Geometry.mk (base + k * w) sw cw offs)) st).activeIndex
        = closestIdx offs (base + k * w) := by
    simp [updateScrollState, h0]
  rw [hact, ← hi, hik]

/-- Witness for C8: 5 children of width 7 starting at 3, scrolled to
child 2. -/
theorem claim8_equal_width_layout_witness :
    (0 : Int) < 7 ∧ 2 < 5 ∧
    (updateScrollState
        (some (Geometry.mk ((3 : Int) + 2 * 7) 100 50
          ((List.range 5).map (fun i : Nat => (3 : Int) + (i : Int) * 7)))) initState).activeIndex = 2 :=
  ⟨by decide, by decide,
    claim8_equal_width_layout 3 7 5 2 100 50 initState (by decide) (by decide)⟩
